import Mathlib

/-!
Verification of the `Adv2` reader package (Adv2File.py / AdvLib.py / Adv.py /
AdvError.py) against its design specification.

The Python sources are shallowly embedded below.  The native `AdvCore`
library that the Python wrapper calls through `ctypes` is not part of the
sources; every native entry point is modelled as an oracle (`NativeAdvLib`)
whose results the wrapper code processes.  Machine integers are modelled as
`Nat`/`Int` with explicit reductions (`% 2^32`, two's-complement reads)
exactly where the `ctypes`/`numpy` types of the source impose them.
-/

namespace Adv2

/-! ## Error codes (AdvError.py) -/

def S_OK : Nat := 0x00000000
def E_ADV_STATUS_TAG_NOT_FOUND_IN_FRAME : Nat := 0x81001004
def E_ADV_FRAME_MISSING_FROM_INDEX : Nat := 0x81001014

/-- The `error_dict` of AdvError.py restricted to the pair
(numeric code, human readable message); `ResolveErrorMessage` is called with
the default `kind='human'` everywhere in Adv2File.py, so only the second
list element of each entry is relevant. -/
def error_dict : List (Nat × String) :=
  [ (0x81000001, "The file could not be found."),
    (0x81000002, "An I/O error has occurred."),
    (0x81001001, "This status TagId has been already added to the current frame."),
    (0x81001002, "Unknown status TagId"),
    (0x81001003, "The type of the status TagId doesnt match the currently called method."),
    (0x81001004, "The requested status TagId is not present in the current frame."),
    (0x81001005, "No status has been loaded. Call GetFramePixels() first."),
    (0x81001006, "Frame not started. Call BeginFrame() first."),
    (0x81001007, "No image has been added to the started frame."),
    (0x81001008, "Invalid StreamId. Must be 0 for MAIN or 1 for CALIBRATION."),
    (0x81001009, "No Image Section has been defined."),
    (0x8100100A, "No Status Section has been defined."),
    (0x8100100B, "Image layouts undefined"),
    (0x8100100C, "Invalid image LayoutId."),
    (0x8100100D, "This change is not allowed on an existing file or once a frame insertion has started."),
    (0x8100100E, "The Image Section can be only defined once per file"),
    (0x8100100F, "The Status Section can be only defined once per file"),
    (0x81001010, "An Image Layout with this LayoutId has been already defined."),
    (0x81001011, "Invalid Image Layout type. Accepted values are FULL-IMAGE-RAW, 12BIT-IMAGE-PACKED and 8BIT-COLOR-IMAGE."),
    (0x81001012, "Invalid Image Layout compression. Accepted values are UNCOMPRESSED, LAGARITH16 and QUICKLZ."),
    (0x81001013, "Invalid Image Layout bits per pixel value. Accepted range is from 1 to 32."),
    (0x81001014, "The requested frame cannot be located in the index. The file may be have been corrupted. Try rebuilding it."),
    (0x81001015, "The frame binary data appears to be corrupted."),
    (0x81001016, "File system file is not open."),
    (0x81002001, "This is not a valid ADV file."),
    (0x81002002, "ADV version not supported."),
    (0x81002003, "\x27MAIN\x27 stream is missing."),
    (0x81002004, "\x27CALIBRATION\x27 stream is missing."),
    (0x81002005, "ADV files must have two sections."),
    (0x81002006, "First section must be \x27IMAGE\x27."),
    (0x81002007, "Second section must be \x27STATUS\x27."),
    (0x81002008, "\x27IMAGE\x27 section version is not supported."),
    (0x81002009, "Image Layout version is not supported."),
    (0x8100200A, "\x27STATUS\x27 section version is not supported."),
    (0x71000001, "An existing tag with the same name has been replaced."),
    (0x80004005, "Error."),
    (0x80004001, "Not Implemented"),
    (0x00000000, "Success.") ]

/-- One hexadecimal digit, upper case, as Python `X` formatting produces. -/
def hexDigit (n : Nat) : Char :=
  if n < 10 then Char.ofNat (48 + n) else Char.ofNat (55 + n)

/-- Fixed-width upper-case hexadecimal rendering of the low `w` digits,
matching Python `f"0x\x7bAdvResult:08X\x7d"` for values below `16^w`. -/
def hexString : Nat → Nat → String
  | 0, _ => ""
  | w + 1, n => hexString w (n / 16) ++ String.mk [hexDigit (n % 16)]

/-- `ResolveErrorMessage` of AdvError.py with the default `kind='human'`. -/
def ResolveErrorMessage (AdvResult : Nat) : String :=
  match (error_dict.find? (fun p => p.1 == AdvResult)) with
  | some p => p.2
  | none => "0x" ++ hexString 8 AdvResult ++ " is not a defined AdvResult"

/-! ## Python `datetime` arithmetic

Adv2File.py computes `datetime(2010, 1, 1) + timedelta(microseconds=usecs)`
and formats the result.  CPython's `datetime` implements proleptic
Gregorian calendar arithmetic; the civil-from-days / days-from-civil
conversions below are the standard algorithms for that calendar (day 0 is
1970-01-01). -/

structure PyDateTime where
  year : Int
  month : Nat
  day : Nat
  hour : Nat
  minute : Nat
  second : Nat
  microsecond : Nat
deriving DecidableEq, Repr, Inhabited

/-- Day number (0 = 1970-01-01) of a proleptic Gregorian calendar date. -/
def daysFromCivil (y : Int) (m d : Nat) : Int :=
  let y := if m ≤ 2 then y - 1 else y
  let era := y.fdiv 400
  let yoe := (y - era * 400).toNat
  let mp := if m > 2 then m - 3 else m + 9
  let doy := (153 * mp + 2) / 5 + d - 1
  let doe := yoe * 365 + yoe / 4 - yoe / 100 + doy
  era * 146097 + (doe : Int) - 719468

/-- Proleptic Gregorian calendar date of a day number (0 = 1970-01-01). -/
def civilFromDays (z : Int) : Int × Nat × Nat :=
  let z := z + 719468
  let era := z.fdiv 146097
  let doe := (z - era * 146097).toNat
  let yoe := (doe - doe / 1460 + doe / 36524 - doe / 146096) / 365
  let y := (yoe : Int) + era * 400
  let doy := doe - (365 * yoe + yoe / 4 - yoe / 100)
  let mp := (5 * doy + 2) / 153
  let d := doy - (153 * mp + 2) / 5 + 1
  let m := if mp < 10 then mp + 3 else mp - 9
  (if m ≤ 2 then y + 1 else y, m, d)

/-- `datetime(2010, 1, 1) + timedelta(microseconds=usecs)` as computed by
CPython: exact integer microsecond arithmetic on the proleptic Gregorian
calendar. -/
def pyDatetime2010PlusMicros (usecs : Int) : PyDateTime :=
  let total := usecs + daysFromCivil 2010 1 1 * 86400000000
  let days := total.fdiv 86400000000
  let rem := (total - days * 86400000000).toNat
  let ymd := civilFromDays days
  { year := ymd.1
    month := ymd.2.1
    day := ymd.2.2
    hour := rem / 3600000000
    minute := rem / 60000000 % 60
    second := rem / 1000000 % 60
    microsecond := rem % 1000000 }

/-- Zero-padded decimal rendering of a natural number, as Python
`f"\x7bv:0Nd\x7d"` produces for nonnegative `v`. -/
def padZero (width n : Nat) : String :=
  let s := toString n
  String.mk (List.replicate (width - s.length) '0') ++ s

/-- Python `f"\x7bv:0Nd\x7d"` for an `int` value (sign included in the width). -/
def formatInt (width : Nat) (v : Int) : String :=
  if v < 0 then "-" ++ padZero (width - 1) v.natAbs else padZero width v.toNat

/-- `f"\x7bts.year:04d\x7d-\x7bts.month:02d\x7d-\x7bts.day:02d\x7d"` (Adv2File.py line 111). -/
def renderDateYMD (ts : PyDateTime) : String :=
  formatInt 4 ts.year ++ "-" ++ padZero 2 ts.month ++ "-" ++ padZero 2 ts.day

/-- `f"[\x7bh:02d\x7d:\x7bm:02d\x7d:\x7bs:02d\x7d.\x7bus:06d\x7d]"` (Adv2File.py lines 113-114). -/
def renderTimeHMS (ts : PyDateTime) : String :=
  "[" ++ padZero 2 ts.hour ++ ":" ++ padZero 2 ts.minute ++ ":" ++
    padZero 2 ts.second ++ "." ++ padZero 6 ts.microsecond ++ "]"

/-! ## The timestamp block of `_getGenericImageAndStatusData`
(Adv2File.py lines 96-114). -/

/-- The Python guard `timedelta == 0` at Adv2File.py line 107 compares the
imported **class** `datetime.timedelta` with the int `0`; neither type's
`__eq__` accepts the other, so the comparison is `False` on every call.
The computed value `ts` is never consulted by the guard. -/
def timedeltaClassEqZero : Bool := false

/-- Lines 98-114 of Adv2File.py: the two strings stored into
`self.frameInfo.DateString` and `self.frameInfo.StartOfExposureTimestampString`
as a function of the unpacked `UtcMidExposureTimestampLo/Hi` and `Exposure`
fields (each an unsigned 32-bit unpack result). -/
def advTimestampStrings (lo hi exposure : Nat) : String × String :=
  let datetime64 : Int := (lo : Int) + (hi : Int) * 2 ^ 32 - (exposure / 2 : Nat)
  let usecs := datetime64.fdiv 1000
  let ts := pyDatetime2010PlusMicros usecs
  if timedeltaClassEqZero then ("", "")
  else (renderDateYMD ts, renderTimeHMS ts)

/-- The start-of-exposure strings as the specification words them
(§4.5 step 7, §4.6): combine `UtcMidExposureTimestampLo/Hi` into a 64-bit
nanosecond count since 2010-01-01T00:00:00, subtract half the exposure
duration, convert to microsecond resolution, then derive the calendar
fields by proleptic Gregorian arithmetic and render `YYYY-MM-DD` and
`[HH:MM:SS.mmmmmm]`. -/
def specStartOfExposureStrings (lo hi exposure : Nat) : String × String :=
  let nanos : Int := (lo : Int) + (hi : Int) * 2 ^ 32
  let startNanos := nanos - (exposure / 2 : Nat)
  let micros := startNanos.fdiv 1000
  let ts := pyDatetime2010PlusMicros micros
  (renderDateYMD ts, renderTimeHMS ts)

/-- Sanity: 2010-01-01 is day 14610 after 1970-01-01 and converts back. -/
example : daysFromCivil 2010 1 1 = 14610 := by decide

example : civilFromDays 14610 = (2010, 1, 1) := by decide

/-- Sanity: leap-day arithmetic (2012-02-29 exists, 100-year rules hold). -/
example : civilFromDays (daysFromCivil 2012 2 29) = (2012, 2, 29) := by decide

example : civilFromDays (daysFromCivil 2100 2 28 + 1) = (2100, 3, 1) := by decide

example : advTimestampStrings 0 0 0 = ("2010-01-01", "[00:00:00.000000]") := by decide

/-! ## Data model (Adv.py) -/

inductive StreamId
  | Main
  | Calibration
deriving DecidableEq, Repr, Inhabited

inductive Adv2TagType
  | Int8
  | Int16
  | Int32
  | Int64
  | Real
  | UTF8String
deriving DecidableEq, Repr, Inhabited

inductive TagPairType
  | MainStream
  | CalibrationStream
  | SystemMetaData
  | UserMetaData
  | ImageSection
  | FirstImageLayout
deriving DecidableEq, Repr, Inhabited

structure AdvFileInfo where
  Width : Nat := 0
  Height : Nat := 0
  CountMainFrames : Nat := 0
  CountCalibrationFrames : Nat := 0
  DataBpp : Nat := 0
  MaxPixelValue : Nat := 0
  MainClockFrequency : Nat := 0
  MainStreamAccuracy : Nat := 0
  CalibrationClockFrequency : Nat := 0
  CalibrationStreamAccuracy : Nat := 0
  MainStreamTagsCount : Nat := 0
  CalibrationStreamTagsCount : Nat := 0
  SystemMetadataTagsCount : Nat := 0
  UserMetadataTagsCount : Nat := 0
  UtcTimestampAccuracyInNanoseconds : Nat := 0
  IsColourImage : Bool := false
  ImageLayoutsCount : Nat := 0
  StatusTagsCount : Nat := 0
  ImageSectionTagsCount : Nat := 0
  ErrorStatusTagId : Nat := 0
deriving DecidableEq, Repr, Inhabited

structure AdvIndexEntry where
  ElapsedTicks : Int := 0
  FrameOffset : Int := 0
  BytesCount : Int := 0
deriving DecidableEq, Repr, Inhabited

/-- The 23 fields of `AdvFrameInfo` written by the `unpack` loop of
`AdvLib.AdvVer2_GetFramePixels` (struct format `7I4f3Bb8I`), plus the two
string fields `DateString` / `StartOfExposureTimestampString` that
Adv2File.py adds.  The four `float` fields and the signed-char field are
carried opaquely as their numeric payloads: the wrapper never computes with
them, it only stores and returns them. -/
structure AdvFrameInfo where
  StartTicksLo : Nat := 0
  StartTicksHi : Nat := 0
  EndTicksLo : Nat := 0
  EndTicksHi : Nat := 0
  UtcMidExposureTimestampLo : Nat := 0
  UtcMidExposureTimestampHi : Nat := 0
  Exposure : Nat := 0
  DateString : String := ""
  StartOfExposureTimestampString : String := ""
  Gamma : Int := 0
  Gain : Int := 0
  Shutter : Int := 0
  Offset : Int := 0
  GPSTrackedSatellites : Nat := 0
  GPSAlmanacStatus : Nat := 0
  GPSFixStatus : Nat := 0
  GPSAlmanacOffset : Int := 0
  VideoCameraFrameIdLo : Nat := 0
  VideoCameraFrameIdHi : Nat := 0
  HardwareTimerFrameIdLo : Nat := 0
  HardwareTimerFrameIdHi : Nat := 0
  SystemTimestampLo : Nat := 0
  SystemTimestampHi : Nat := 0
  ImageLayoutId : Nat := 0
  RawDataBlockSize : Nat := 0
deriving DecidableEq, Repr, Inhabited

/-- The 23 raw values unpacked from the C `frame_info` buffer by
`AdvLib.AdvVer2_GetFramePixels`; what the native call wrote. -/
structure RawFrameInfo where
  StartTicksLo : Nat := 0
  StartTicksHi : Nat := 0
  EndTicksLo : Nat := 0
  EndTicksHi : Nat := 0
  UtcMidExposureTimestampLo : Nat := 0
  UtcMidExposureTimestampHi : Nat := 0
  Exposure : Nat := 0
  Gamma : Int := 0
  Gain : Int := 0
  Shutter : Int := 0
  Offset : Int := 0
  GPSTrackedSatellites : Nat := 0
  GPSAlmanacStatus : Nat := 0
  GPSFixStatus : Nat := 0
  GPSAlmanacOffset : Int := 0
  VideoCameraFrameIdLo : Nat := 0
  VideoCameraFrameIdHi : Nat := 0
  HardwareTimerFrameIdLo : Nat := 0
  HardwareTimerFrameIdHi : Nat := 0
  SystemTimestampLo : Nat := 0
  SystemTimestampHi : Nat := 0
  ImageLayoutId : Nat := 0
  RawDataBlockSize : Nat := 0
deriving DecidableEq, Repr, Inhabited

/-- The attribute assignments of `AdvLib.AdvVer2_GetFramePixels` lines
142-170: every unpacked field of the Python `frameInfo` object is
overwritten; the two string attributes are not touched by the unpack. -/
def writeRawInfo (fi : AdvFrameInfo) (r : RawFrameInfo) : AdvFrameInfo :=
  { fi with
    StartTicksLo := r.StartTicksLo
    StartTicksHi := r.StartTicksHi
    EndTicksLo := r.EndTicksLo
    EndTicksHi := r.EndTicksHi
    UtcMidExposureTimestampLo := r.UtcMidExposureTimestampLo
    UtcMidExposureTimestampHi := r.UtcMidExposureTimestampHi
    Exposure := r.Exposure
    Gamma := r.Gamma
    Gain := r.Gain
    Shutter := r.Shutter
    Offset := r.Offset
    GPSTrackedSatellites := r.GPSTrackedSatellites
    GPSAlmanacStatus := r.GPSAlmanacStatus
    GPSFixStatus := r.GPSFixStatus
    GPSAlmanacOffset := r.GPSAlmanacOffset
    VideoCameraFrameIdLo := r.VideoCameraFrameIdLo
    VideoCameraFrameIdHi := r.VideoCameraFrameIdHi
    HardwareTimerFrameIdLo := r.HardwareTimerFrameIdLo
    HardwareTimerFrameIdHi := r.HardwareTimerFrameIdHi
    SystemTimestampLo := r.SystemTimestampLo
    SystemTimestampHi := r.SystemTimestampHi
    ImageLayoutId := r.ImageLayoutId
    RawDataBlockSize := r.RawDataBlockSize }

/-- A value stored in the per-frame status dictionary.  Python makes the
dictionary heterogeneous: ints, floats and strings.  Float payloads are
carried opaquely (`realV`): the wrapper performs no floating-point
arithmetic, it only passes the native value through. -/
inductive StatusValue
  | intV (v : Int)
  | realV (payload : Int)
  | strV (s : String)
deriving DecidableEq, Repr, Inhabited

/-! ## The native library oracle

Each field models one `advDLL` entry point used by the sources: the
value(s) the native call writes through its out-pointers together with its
return code (already masked with `RET_VAL_MASK`, hence a `Nat` below
`2^32`).  Pixel and index buffers are modelled as functions from slot
number to the 32-bit word the native call stored there. -/

structure NativeAdvLib where
  framePixels : StreamId → Nat → Nat × RawFrameInfo × (Nat → Nat)
  statusU8 : Nat → Nat × Int
  statusI16 : Nat → Nat × Int
  statusI32 : Nat → Nat × Int
  statusI64 : Nat → Nat × Int
  statusReal : Nat → Nat × Int
  statusUtf8Size : Nat → Nat × Nat
  statusUtf8Str : Nat → Nat × String
  tagPair : TagPairType → Nat → Nat × String × String
  indexRet : Nat
  mainIndexWords : Nat → Nat
  calibIndexWords : Nat → Nat
  statusTagName : Nat → Adv2TagType × String

/-! ## AdvLib.py wrappers over the native calls -/

/-- `AdvLib.AdvVer2_GetStatusTagUInt8`: `-1` whenever the native return
code is not `S_OK` (the out-value is a `c_int8`). -/
def AdvVer2_GetStatusTagUInt8 (n : NativeAdvLib) (tagId : Nat) : Int :=
  let r := n.statusU8 tagId
  if r.1 ≠ S_OK then -1 else r.2

/-- `AdvLib.AdvVer2_GetStatusTagInt16`. -/
def AdvVer2_GetStatusTagInt16 (n : NativeAdvLib) (tagId : Nat) : Int :=
  let r := n.statusI16 tagId
  if r.1 ≠ S_OK then -1 else r.2

/-- `AdvLib.AdvVer2_GetStatusTagInt32`. -/
def AdvVer2_GetStatusTagInt32 (n : NativeAdvLib) (tagId : Nat) : Int :=
  let r := n.statusI32 tagId
  if r.1 ≠ S_OK then -1 else r.2

/-- `AdvLib.AdvVer2_GetStatusTagInt64`. -/
def AdvVer2_GetStatusTagInt64 (n : NativeAdvLib) (tagId : Nat) : Int :=
  let r := n.statusI64 tagId
  if r.1 ≠ S_OK then -1 else r.2

/-- `AdvLib.AdvVer2_GetStatusTagReal`: the Python function returns the
`int` `-1` on failure and a `float` on success. -/
def AdvVer2_GetStatusTagReal (n : NativeAdvLib) (tagId : Nat) : StatusValue :=
  let r := n.statusReal tagId
  if r.1 ≠ S_OK then .intV (-1) else .realV r.2

/-- `AdvLib.AdvVer2_GetStatusTagUTF8String`: an empty string when the size
probe reports `E_ADV_STATUS_TAG_NOT_FOUND_IN_FRAME`, an `AdvLibException`
(modelled as `Except.error`) on any other failure of either native call. -/
def AdvVer2_GetStatusTagUTF8String (n : NativeAdvLib) (tagId : Nat) :
    Except String String :=
  let s := n.statusUtf8Size tagId
  if s.1 ≠ S_OK then
    if s.1 = E_ADV_STATUS_TAG_NOT_FOUND_IN_FRAME then .ok ""
    else .error (ResolveErrorMessage s.1)
  else
    let v := n.statusUtf8Str tagId
    if v.1 ≠ S_OK then .error (ResolveErrorMessage v.1)
    else .ok v.2

/-! ## Python `dict` model

Insertion-ordered association lists with the semantics of
`d.update(\x7bk: v\x7d)`: an existing key keeps its position and gets the new
value, a new key is appended.  Dictionaries built through `dictUpdate`
from `[]` never hold a duplicate key, so replacing the first occurrence is
exact. -/

def dictUpdate {V : Type} : List (String × V) → String → V → List (String × V)
  | [], k, v => [(k, v)]
  | a :: d, k, v => if a.1 = k then (k, v) :: d else a :: dictUpdate d k v

/-- Python `d[k]` / `d.get(k)` as an `Option`. -/
def dictLookup {V : Type} (d : List (String × V)) (k : String) : Option V :=
  (d.find? (fun p => p.1 == k)).map (fun p => p.2)

/-! ## The status-dictionary loop (Adv2File.py lines 118-145) -/

/-- Rendering of the special-cased `SystemTime` status tag
(Adv2File.py lines 132-137): date, a space, then the bracketed time. -/
def systemTimeString (usecs : Int) : String :=
  let ts := pyDatetime2010PlusMicros usecs
  renderDateYMD ts ++ " " ++ renderTimeHMS ts

/-- The dictionary value produced for the tag at loop index `i` (the loop
index doubles as the native `tagId`).  The cascade of `if tagType ==`
tests in the source selects exactly the branch of the declared type. -/
def statusEntryValue (n : NativeAdvLib) (i : Nat) (ty : Adv2TagType)
    (nm : String) : Except String StatusValue :=
  match ty with
  | .Int8 => .ok (.intV (AdvVer2_GetStatusTagUInt8 n i))
  | .Int16 => .ok (.intV (AdvVer2_GetStatusTagInt16 n i))
  | .Int32 => .ok (.intV (AdvVer2_GetStatusTagInt32 n i))
  | .Int64 =>
      let v := AdvVer2_GetStatusTagInt64 n i
      if nm = "SystemTime" then .ok (.strV (systemTimeString (v.fdiv 1000)))
      else .ok (.intV v)
  | .Real => .ok (AdvVer2_GetStatusTagReal n i)
  | .UTF8String => (AdvVer2_GetStatusTagUTF8String n i).map .strV

/-- The `for i in range(len(self.statusTagInfo))` loop building
`status_dict`; `i` is the running loop index, `d` the dictionary so far.
An `AdvLibException` raised by a string getter aborts the whole call. -/
def buildStatusDict (n : NativeAdvLib) :
    List (Adv2TagType × String) → Nat → List (String × StatusValue) →
    Except String (List (String × StatusValue))
  | [], _, d => .ok d
  | (ty, nm) :: rest, i, d =>
      match statusEntryValue n i ty nm with
      | .error e => .error e
      | .ok v => buildStatusDict n rest (i + 1) (dictUpdate d nm v)

/-! ## The reader object (Adv2reader) -/

/-- The mutable attributes of an `Adv2reader` instance that the embedded
operations read or write.  `frameInfoRef` is the heap index of the single
`AdvFrameInfo` object created in `__init__` (line 64); the heap makes the
Python object identity explicit. -/
structure Adv2reader where
  Width : Nat
  Height : Nat
  CountMainFrames : Nat
  CountCalibrationFrames : Nat
  FileInfo : AdvFileInfo
  pixels : Option (List (List Nat)) := none
  sysErrLength : Nat := 0
  frameInfoRef : Nat := 0
  statusTagInfo : List (Adv2TagType × String) := []
deriving DecidableEq, Repr, Inhabited

/-- The status-tag schema built by `__init__` lines 67-70: every declared
tag id is queried, and only tags whose name is truthy (non-empty) are
appended. -/
def mkStatusTagInfo (n : NativeAdvLib) (count : Nat) :
    List (Adv2TagType × String) :=
  (List.range count).filterMap (fun tagId =>
    let r := n.statusTagName tagId
    if r.2 = "" then none else some r)

/-- The reader state `__init__` leaves behind (lines 54-70), given the
parsed `AdvFileInfo`; the heap holds the one `AdvFrameInfo()` allocated at
line 64 at index 0. -/
def mkAdv2reader (n : NativeAdvLib) (fi : AdvFileInfo) : Adv2reader :=
  { Width := fi.Width
    Height := fi.Height
    CountMainFrames := fi.CountMainFrames
    CountCalibrationFrames := fi.CountCalibrationFrames
    FileInfo := fi
    pixels := none
    sysErrLength := 0
    frameInfoRef := 0
    statusTagInfo := mkStatusTagInfo n fi.StatusTagsCount }

def initHeap : List AdvFrameInfo := [{}]

/-- `np.reshape(np.array(pixel_array, dtype='uint16'), (Height, Width))`:
the `c_uint` buffer holds each stored word reduced mod `2^32`; the
`uint16` conversion truncates each word mod `2^16`; the reshape is
row-major with `Height` rows of `Width` columns. -/
def reshapePixels (pix : Nat → Nat) (W H : Nat) : List (List Nat) :=
  (List.range H).map (fun r =>
    (List.range W).map (fun c => pix (r * W + c) % 2 ^ 32 % 2 ^ 16))

/-- Everything `_getGenericImageAndStatusData` hands back: the four
components of the returned tuple (the frame record as its heap
reference), plus the post-call reader attributes and heap. -/
structure FrameResult where
  errMsg : String
  pixels : List (List Nat)
  frameInfoRef : Nat
  statusMap : List (String × StatusValue)
  reader : Adv2reader
  heap : List AdvFrameInfo
deriving DecidableEq, Repr, Inhabited

/-- `Adv2reader._getGenericImageAndStatusData` (Adv2File.py lines 78-147).
State passing: the native call overwrites the 23 unpacked fields of the
shared `self.frameInfo` object; `self.pixels` is rebound to a fresh
reshaped array; on a non-`S_OK` return code the call returns the resolved
message with an empty status dictionary; otherwise the two timestamp
strings are stored on the shared object and the status dictionary is
built (an `AdvLibException` from a string tag propagates). -/
def getGenericImageAndStatusData (n : NativeAdvLib) (rdr : Adv2reader)
    (heap : List AdvFrameInfo) (frameNumber : Nat) (streamType : StreamId) :
    Except String FrameResult :=
  let call := n.framePixels streamType frameNumber
  let retVal := call.1
  let raw := call.2.1
  let prev := heap.getD rdr.frameInfoRef {}
  let fiRaw := writeRawInfo prev raw
  let heap1 := heap.set rdr.frameInfoRef fiRaw
  let px := reshapePixels call.2.2 rdr.Width rdr.Height
  let rdr1 := { rdr with pixels := some px }
  if retVal ≠ S_OK then
    .ok { errMsg := ResolveErrorMessage retVal, pixels := px,
          frameInfoRef := rdr.frameInfoRef, statusMap := [],
          reader := rdr1, heap := heap1 }
  else
    let strs := advTimestampStrings raw.UtcMidExposureTimestampLo
      raw.UtcMidExposureTimestampHi raw.Exposure
    let heap2 := heap1.set rdr.frameInfoRef
      { fiRaw with DateString := strs.1, StartOfExposureTimestampString := strs.2 }
    match buildStatusDict n rdr.statusTagInfo 0 [] with
    | .error e => .error e
    | .ok m =>
        .ok { errMsg := "", pixels := px, frameInfoRef := rdr.frameInfoRef,
              statusMap := m, reader := rdr1, heap := heap2 }

/-- `Adv2reader.getMainImageAndStatusData`. -/
def getMainImageAndStatusData (n : NativeAdvLib) (rdr : Adv2reader)
    (heap : List AdvFrameInfo) (frameNumber : Nat) : Except String FrameResult :=
  getGenericImageAndStatusData n rdr heap frameNumber .Main

/-- `Adv2reader.getCalibImageAndStatusData`. -/
def getCalibImageAndStatusData (n : NativeAdvLib) (rdr : Adv2reader)
    (heap : List AdvFrameInfo) (frameNumber : Nat) : Except String FrameResult :=
  getGenericImageAndStatusData n rdr heap frameNumber .Calibration

/-! ## Metadata (Adv2File.py lines 149-161) -/

/-- `Adv2reader.getAdvFileMetaData`: fold the system tag-pair table, then
the user tag-pair table, into one dictionary; an entry whose native call
reports a non-zero code is skipped (`if not err_msg`). -/
def getAdvFileMetaData (n : NativeAdvLib) (rdr : Adv2reader) :
    List (String × String) :=
  let step := fun (ty : TagPairType) (d : List (String × String)) (i : Nat) =>
    let r := n.tagPair ty i
    if r.1 = 0 then dictUpdate d r.2.1 r.2.2 else d
  let d1 := (List.range rdr.FileInfo.SystemMetadataTagsCount).foldl
    (step .SystemMetaData) []
  (List.range rdr.FileInfo.UserMetadataTagsCount).foldl (step .UserMetaData) d1

/-! ## Index entries (Adv2File.py lines 163-206) -/

/-- Reading slot `k` of a `ctypes` `c_int` array whose stored 32-bit word
is `w`: the Python value is the two's-complement (signed) reading. -/
def toSigned32 (w : Nat) : Int :=
  if w % 2 ^ 32 < 2 ^ 31 then ((w % 2 ^ 32 : Nat) : Int)
  else ((w % 2 ^ 32 : Nat) : Int) - 2 ^ 32

/-- One stream's loop of `getIndexEntries`: entry `j` reads the five
fields at slots `6j .. 6j+4` (`base += 6` per iteration), assembling
`ticks`/`offset` as `lo + (hi << 32)` of the signed slot values. -/
def readIndexList (words : Nat → Nat) (count : Nat) : List AdvIndexEntry :=
  (List.range count).map (fun j =>
    { ElapsedTicks := toSigned32 (words (6 * j)) + toSigned32 (words (6 * j + 1)) * 2 ^ 32
      FrameOffset := toSigned32 (words (6 * j + 2)) + toSigned32 (words (6 * j + 3)) * 2 ^ 32
      BytesCount := toSigned32 (words (6 * j + 4)) })

/-- `Adv2reader.getIndexEntries`: on `S_OK` the per-stream lists, built
in frame-number order; otherwise an `AdvLibException`. -/
def getIndexEntries (n : NativeAdvLib) (rdr : Adv2reader) :
    Except String (List AdvIndexEntry × List AdvIndexEntry) :=
  if n.indexRet = S_OK then
    .ok (readIndexList n.mainIndexWords rdr.CountMainFrames,
         readIndexList n.calibIndexWords rdr.CountCalibrationFrames)
  else .error (ResolveErrorMessage n.indexRet)

/-- Frame count of the requested stream (`CountXFrames` of the spec). -/
def streamFrameCount (rdr : Adv2reader) : StreamId → Nat
  | .Main => rdr.CountMainFrames
  | .Calibration => rdr.CountCalibrationFrames

/-- Modelled from the spec: the frame-number bounds check is performed by
the native `AdvCore` library (`AdvVer2_GetFramePixels`), whose source is
not part of this repository.  Spec §4.5 step 1: "Look up (offset, length)
in the stream's index; out-of-range frame number fails with
FrameNotInIndex", i.e. the native call reports
`E_ADV_FRAME_MISSING_FROM_INDEX` for every frame number outside
`[0, CountXFrames)`. -/
def nativeRejectsOutOfRange (n : NativeAdvLib) (rdr : Adv2reader) : Prop :=
  ∀ s f, ¬ f < streamFrameCount rdr s →
    (n.framePixels s f).1 = E_ADV_FRAME_MISSING_FROM_INDEX

/-! ## Dictionary lemmas -/

theorem dictLookup_cons {V : Type} (a : String × V) (d : List (String × V))
    (k : String) :
    dictLookup (a :: d) k = if a.1 = k then some a.2 else dictLookup d k := by
  by_cases h : a.1 = k <;> simp [dictLookup, List.find?_cons, h]

theorem dictLookup_update_self {V : Type} (d : List (String × V)) (k : String)
    (v : V) : dictLookup (dictUpdate d k v) k = some v := by
  induction d with
  | nil => simp [dictUpdate, dictLookup_cons]
  | cons a d ih =>
    by_cases h : a.1 = k
    · simp [dictUpdate, h, dictLookup_cons]
    · simp [dictUpdate, h, dictLookup_cons, ih]

theorem dictLookup_update_ne {V : Type} (d : List (String × V)) (k k' : String)
    (v : V) (h : k' ≠ k) :
    dictLookup (dictUpdate d k v) k' = dictLookup d k' := by
  induction d with
  | nil => simp [dictUpdate, dictLookup_cons, dictLookup, Ne.symm h]
  | cons a d ih =>
    by_cases hak : a.1 = k
    · subst hak
      simp [dictUpdate, dictLookup_cons, Ne.symm h]
    · simp [dictUpdate, hak, dictLookup_cons, ih]

/-- Every key present after an update was the updated key or already
present. -/
theorem mem_dictUpdate {V : Type} {d : List (String × V)} {k : String} {v : V}
    {p : String × V} (h : p ∈ dictUpdate d k v) : p.1 = k ∨ p ∈ d := by
  induction d with
  | nil => simp [dictUpdate] at h; simp [h]
  | cons a d ih =>
    by_cases hak : a.1 = k
    · simp [dictUpdate, hak] at h
      rcases h with h | h
      · exact .inl (by simp [h])
      · exact .inr (.tail _ h)
    · simp [dictUpdate, hak] at h
      rcases h with h | h
      · exact .inr (by simp [h])
      · rcases ih h with h' | h'
        · exact .inl h'
        · exact .inr (.tail _ h')

/-- Left fold of `dictUpdate` over a write list — the shape every
dictionary in the sources is built in. -/
def applyWrites {V : Type} (d ws : List (String × V)) : List (String × V) :=
  ws.foldl (fun d kv => dictUpdate d kv.1 kv.2) d

/-- The value of the last pair carrying key `k` in a write list (the
"later-processed" pair of the specification). -/
def lastValue {V : Type} : List (String × V) → String → Option V
  | [], _ => none
  | a :: ws, k =>
      match lastValue ws k with
      | some v => some v
      | none => if a.1 = k then some a.2 else none

theorem applyWrites_cons {V : Type} (d : List (String × V)) (a : String × V)
    (ws : List (String × V)) :
    applyWrites d (a :: ws) = applyWrites (dictUpdate d a.1 a.2) ws := rfl

theorem applyWrites_append {V : Type} (d ws₁ ws₂ : List (String × V)) :
    applyWrites d (ws₁ ++ ws₂) = applyWrites (applyWrites d ws₁) ws₂ :=
  List.foldl_append ..

/-- Folding a write list into a dictionary realises last-write-wins:
the retrievable value for `k` is the last write to `k`, falling back to
the prior dictionary. -/
theorem dictLookup_applyWrites {V : Type} (ws : List (String × V))
    (d : List (String × V)) (k : String) :
    dictLookup (applyWrites d ws) k =
      match lastValue ws k with
      | some v => some v
      | none => dictLookup d k := by
  induction ws generalizing d with
  | nil => simp [applyWrites, lastValue]
  | cons a ws ih =>
    rw [applyWrites_cons, ih]
    show _ = (match lastValue (a :: ws) k with
      | some v => some v
      | none => dictLookup d k)
    rw [show lastValue (a :: ws) k = match lastValue ws k with
        | some v => some v
        | none => if a.1 = k then some a.2 else none from rfl]
    cases hl : lastValue ws k with
    | some v => simp
    | none =>
      by_cases hak : a.1 = k
      · subst hak; simp [dictLookup_update_self]
      · simp [hak, dictLookup_update_ne _ _ _ _ (fun he => hak he.symm)]

/-- A conditional fold step is the fold of the filtered write list. -/
theorem foldl_condStep_applyWrites {V α : Type} (f : α → Nat × String × V)
    (l : List α) (d : List (String × V)) :
    l.foldl (fun d x =>
        let r := f x
        if r.1 = 0 then dictUpdate d r.2.1 r.2.2 else d) d =
      applyWrites d ((l.map f).filterMap
        (fun r => if r.1 = 0 then some (r.2.1, r.2.2) else none)) := by
  induction l generalizing d with
  | nil => rfl
  | cons a l ih =>
    by_cases h : (f a).1 = 0 <;>
      simp [applyWrites_cons, h, ih, List.filterMap_cons]

/-- The (name, value) pairs `getAdvFileMetaData` actually processes:
system table entries then user table entries, in entry order, keeping the
pairs whose native call returned code 0. -/
def metaProcessedPairs (n : NativeAdvLib) (rdr : Adv2reader) :
    List (String × String) :=
  (((List.range rdr.FileInfo.SystemMetadataTagsCount).map
      (n.tagPair .SystemMetaData)) ++
    ((List.range rdr.FileInfo.UserMetadataTagsCount).map
      (n.tagPair .UserMetaData))).filterMap
    (fun r => if r.1 = 0 then some (r.2.1, r.2.2) else none)

theorem getAdvFileMetaData_eq_applyWrites (n : NativeAdvLib)
    (rdr : Adv2reader) :
    getAdvFileMetaData n rdr = applyWrites [] (metaProcessedPairs n rdr) := by
  unfold getAdvFileMetaData metaProcessedPairs
  rw [List.filterMap_append, applyWrites_append,
    ← foldl_condStep_applyWrites, ← foldl_condStep_applyWrites]

/-! ## Status-dictionary lemmas -/

/-- Every pair of a successfully built status dictionary was already in
the starting dictionary or carries the name of a processed tag. -/
theorem buildStatusDict_ok_keys (n : NativeAdvLib) :
    ∀ (tags : List (Adv2TagType × String)) (i : Nat)
      (d m : List (String × StatusValue)),
      buildStatusDict n tags i d = .ok m →
      ∀ p ∈ m, p ∈ d ∨ ∃ ty, (ty, p.1) ∈ tags
  | [], _, d, m, h, p, hp => by
      simp [buildStatusDict] at h
      exact .inl (h ▸ hp)
  | (ty₀, nm₀) :: rest, i, d, m, h, p, hp => by
      rw [buildStatusDict] at h
      cases hv : statusEntryValue n i ty₀ nm₀ with
      | error e => rw [hv] at h; exact absurd h (by simp)
      | ok v =>
        rw [hv] at h
        rcases buildStatusDict_ok_keys n rest (i + 1) _ m h p hp with hd | ⟨ty, hty⟩
        · rcases mem_dictUpdate hd with hk | hd'
          · exact .inr ⟨ty₀, by simp [hk]⟩
          · exact .inl hd'
        · exact .inr ⟨ty, .tail _ hty⟩

/-- A key no processed tag carries keeps its prior binding. -/
theorem buildStatusDict_lookup_untouched (n : NativeAdvLib) :
    ∀ (tags : List (Adv2TagType × String)) (i : Nat)
      (d m : List (String × StatusValue)) (k : String),
      (∀ ty nm, (ty, nm) ∈ tags → nm ≠ k) →
      buildStatusDict n tags i d = .ok m →
      dictLookup m k = dictLookup d k
  | [], _, d, m, k, _, h => by
      simp [buildStatusDict] at h
      rw [h]
  | (ty₀, nm₀) :: rest, i, d, m, k, hk, h => by
      rw [buildStatusDict] at h
      cases hv : statusEntryValue n i ty₀ nm₀ with
      | error e => rw [hv] at h; exact absurd h (by simp)
      | ok v =>
        rw [hv] at h
        rw [buildStatusDict_lookup_untouched n rest (i + 1) _ m k
          (fun ty nm hm => hk ty nm (.tail _ hm)) h]
        exact dictLookup_update_ne d nm₀ k v
          (fun he => hk ty₀ nm₀ (.head _) he.symm)

/-- The binding a processed tag leaves when no later tag shares its name:
the value its own getter produced. -/
theorem buildStatusDict_lookup_at (n : NativeAdvLib) :
    ∀ (tags : List (Adv2TagType × String)) (i : Nat)
      (d m : List (String × StatusValue)) (j : Nat) (ty : Adv2TagType)
      (nm : String) (v : StatusValue),
      buildStatusDict n tags i d = .ok m →
      tags[j]? = some (ty, nm) →
      (∀ j' ty' nm', j < j' → tags[j']? = some (ty', nm') → nm' ≠ nm) →
      statusEntryValue n (i + j) ty nm = .ok v →
      dictLookup m nm = some v
  | [], _, _, _, j, _, _, _, _, hj, _, _ => by simp at hj
  | (ty₀, nm₀) :: rest, i, d, m, j, ty, nm, v, h, hj, hlater, hv => by
      rw [buildStatusDict] at h
      cases j with
      | zero =>
        simp at hj
        obtain ⟨hty, hnm⟩ := hj
        rw [← hty, ← hnm, Nat.add_zero] at hv
        rw [hv] at h
        have hrest : ∀ ty' nm', (ty', nm') ∈ rest → nm' ≠ nm₀ := by
          intro ty' nm' hm he
          rcases List.mem_iff_getElem?.mp hm with ⟨j', hj'⟩
          exact hlater (j' + 1) ty' nm' (Nat.succ_pos _) (by simpa using hj')
            (he.trans hnm)
        rw [← hnm]
        rw [buildStatusDict_lookup_untouched n rest (i + 1) _ m nm₀ hrest h]
        exact dictLookup_update_self d nm₀ v
      | succ j' =>
        cases hv0 : statusEntryValue n i ty₀ nm₀ with
        | error e => rw [hv0] at h; exact absurd h (by simp)
        | ok v₀ =>
          rw [hv0] at h
          refine buildStatusDict_lookup_at n rest (i + 1) _ m j' ty nm v h
            (by simpa using hj)
            (fun j'' ty' nm' hlt hj'' =>
              hlater (j'' + 1) ty' nm' (Nat.succ_lt_succ hlt) (by simpa using hj''))
            (by rw [show i + 1 + j' = i + (j' + 1) by omega]; exact hv)

/-! ## Characterisation of `getGenericImageAndStatusData` -/

/-- The early return of lines 92-94: any non-`S_OK` native return code
yields the resolved message, the reshaped pixels, the shared record
(raw fields overwritten, strings untouched) and an empty status map. -/
theorem getGeneric_err (n : NativeAdvLib) (rdr : Adv2reader)
    (heap : List AdvFrameInfo) (f : Nat) (s : StreamId)
    (h : (n.framePixels s f).1 ≠ S_OK) :
    getGenericImageAndStatusData n rdr heap f s = .ok
      { errMsg := ResolveErrorMessage (n.framePixels s f).1
        pixels := reshapePixels (n.framePixels s f).2.2 rdr.Width rdr.Height
        frameInfoRef := rdr.frameInfoRef
        statusMap := []
        reader := { rdr with pixels := some (reshapePixels (n.framePixels s f).2.2 rdr.Width rdr.Height) }
        heap := heap.set rdr.frameInfoRef
          (writeRawInfo (heap.getD rdr.frameInfoRef {}) (n.framePixels s f).2.1) } := by
  simp only [getGenericImageAndStatusData]
  rw [if_pos h]

/-- The success path of lines 96-147: empty error message, reshaped
pixels, the shared record now carrying the rendered timestamp strings,
and the built status dictionary. -/
theorem getGeneric_ok (n : NativeAdvLib) (rdr : Adv2reader)
    (heap : List AdvFrameInfo) (f : Nat) (s : StreamId)
    (m : List (String × StatusValue))
    (h : (n.framePixels s f).1 = S_OK)
    (hm : buildStatusDict n rdr.statusTagInfo 0 [] = .ok m) :
    getGenericImageAndStatusData n rdr heap f s = .ok
      { errMsg := ""
        pixels := reshapePixels (n.framePixels s f).2.2 rdr.Width rdr.Height
        frameInfoRef := rdr.frameInfoRef
        statusMap := m
        reader := { rdr with pixels := some (reshapePixels (n.framePixels s f).2.2 rdr.Width rdr.Height) }
        heap := heap.set rdr.frameInfoRef
          { writeRawInfo (heap.getD rdr.frameInfoRef {}) (n.framePixels s f).2.1 with
            DateString := (advTimestampStrings
              (n.framePixels s f).2.1.UtcMidExposureTimestampLo
              (n.framePixels s f).2.1.UtcMidExposureTimestampHi
              (n.framePixels s f).2.1.Exposure).1
            StartOfExposureTimestampString := (advTimestampStrings
              (n.framePixels s f).2.1.UtcMidExposureTimestampLo
              (n.framePixels s f).2.1.UtcMidExposureTimestampHi
              (n.framePixels s f).2.1.Exposure).2 } } := by
  simp only [getGenericImageAndStatusData]
  rw [if_neg (by simp [h]), hm, List.set_set]

/-- Structure shared by both return paths: whenever the call returns at
all, the pixels are the freshly reshaped array, the returned record is
the reader's shared `frameInfo` object, the reader is unchanged except
for the `pixels` rebinding, and no heap cell other than the shared
record's is touched (in particular nothing is allocated). -/
theorem getGeneric_ok_inv (n : NativeAdvLib) (rdr : Adv2reader)
    (heap : List AdvFrameInfo) (f : Nat) (s : StreamId) (r : FrameResult)
    (h : getGenericImageAndStatusData n rdr heap f s = .ok r) :
    r.pixels = reshapePixels (n.framePixels s f).2.2 rdr.Width rdr.Height ∧
    r.frameInfoRef = rdr.frameInfoRef ∧
    r.reader = { rdr with pixels := some r.pixels } ∧
    r.heap.length = heap.length ∧
    (∀ j, j ≠ rdr.frameInfoRef → r.heap[j]? = heap[j]?) := by
  by_cases hc : (n.framePixels s f).1 = S_OK
  · cases hm : buildStatusDict n rdr.statusTagInfo 0 [] with
    | error e =>
      simp only [getGenericImageAndStatusData] at h
      rw [if_neg (by simp [hc]), hm] at h
      exact absurd h (by simp)
    | ok m =>
      rw [getGeneric_ok n rdr heap f s m hc hm] at h
      cases h
      refine ⟨rfl, rfl, rfl, by simp, fun j hj => ?_⟩
      simp [List.getElem?_set_ne (fun he => hj he.symm)]
  · rw [getGeneric_err n rdr heap f s hc] at h
    cases h
    refine ⟨rfl, rfl, rfl, by simp, fun j hj => ?_⟩
    simp [List.getElem?_set_ne (fun he => hj he.symm)]

/-- On the success path the returned status map is exactly the built
dictionary. -/
theorem getGeneric_statusMap_ok (n : NativeAdvLib) (rdr : Adv2reader)
    (heap : List AdvFrameInfo) (f : Nat) (s : StreamId) (r : FrameResult)
    (hsuc : (n.framePixels s f).1 = S_OK)
    (h : getGenericImageAndStatusData n rdr heap f s = .ok r) :
    buildStatusDict n rdr.statusTagInfo 0 [] = .ok r.statusMap := by
  cases hm : buildStatusDict n rdr.statusTagInfo 0 [] with
  | error e =>
    simp only [getGenericImageAndStatusData] at h
    rw [if_neg (by simp [hsuc]), hm] at h
    exact absurd h (by simp)
  | ok m =>
    rw [getGeneric_ok n rdr heap f s m hsuc hm] at h
    cases h
    rfl

/-- A status-dictionary exception propagates out of the whole call. -/
theorem getGeneric_statusErr (n : NativeAdvLib) (rdr : Adv2reader)
    (heap : List AdvFrameInfo) (f : Nat) (s : StreamId) (e : String)
    (hsuc : (n.framePixels s f).1 = S_OK)
    (hm : buildStatusDict n rdr.statusTagInfo 0 [] = .error e) :
    getGenericImageAndStatusData n rdr heap f s = .error e := by
  simp only [getGenericImageAndStatusData]
  rw [if_neg (by simp [hsuc]), hm]

/-- Overwriting the 23 raw fields and then both strings determines every
field of the record: the previous record contents are gone. -/
theorem writeRawInfo_then_strings (p q : AdvFrameInfo) (raw : RawFrameInfo)
    (ds ts : String) :
    ({ writeRawInfo p raw with DateString := ds, StartOfExposureTimestampString := ts } : AdvFrameInfo) =
    { writeRawInfo q raw with DateString := ds, StartOfExposureTimestampString := ts } := rfl

/-- The schema built at open time holds no empty tag name
(the `if tagName:` filter of `__init__`). -/
theorem mkStatusTagInfo_names_nonempty (n : NativeAdvLib) (count : Nat) :
    ∀ ty nm, (ty, nm) ∈ mkStatusTagInfo n count → nm ≠ "" := by
  intro ty nm hm
  unfold mkStatusTagInfo at hm
  rcases List.mem_filterMap.mp hm with ⟨tid, -, htid⟩
  by_cases he : (n.statusTagName tid).2 = ""
  · rw [if_pos he] at htid
    exact absurd htid (by simp)
  · rw [if_neg he] at htid
    have hr := Option.some.inj htid
    exact fun hc => he (by rw [hr]; exact hc)

/-! ## Concrete instances used by witnesses and counterexamples -/

/-- A total native oracle with benign answers everywhere; concrete
instances below override individual fields. -/
def baseOracle : NativeAdvLib :=
  { framePixels := fun _ _ => (S_OK, {}, fun _ => 0)
    statusU8 := fun _ => (S_OK, 3)
    statusI16 := fun _ => (S_OK, 3)
    statusI32 := fun _ => (S_OK, 3)
    statusI64 := fun _ => (S_OK, 3)
    statusReal := fun _ => (S_OK, 3)
    statusUtf8Size := fun _ => (S_OK, 1)
    statusUtf8Str := fun _ => (S_OK, "x")
    tagPair := fun _ _ => (0, "Name", "Value")
    indexRet := S_OK
    mainIndexWords := fun _ => 0
    calibIndexWords := fun _ => 0
    statusTagName := fun _ => (.Int8, "Tag") }

def baseFileInfo : AdvFileInfo :=
  { Width := 2, Height := 1, CountMainFrames := 1 }

/-- A 2×1, one-main-frame reader with an empty status schema. -/
def baseReader : Adv2reader :=
  { Width := 2, Height := 1, CountMainFrames := 1, CountCalibrationFrames := 0,
    FileInfo := baseFileInfo }

/-- Unwrap a successful call (total, for stating closed facts). -/
def okResult (x : Except String FrameResult) : FrameResult :=
  match x with
  | .ok r => r
  | .error _ => default

/-! ## Claims -/

/-- C8: for every open file, the metadata map returned by
`getAdvFileMetaData` is the fold of the system tag-pair table followed by
the user tag-pair table with last-write-wins semantics: the value
retrievable for any name is exactly the value of the last processed pair
carrying that name (`lastValue` of the processed system-then-user pair
list). -/
theorem C8_metadata_last_write_wins (n : NativeAdvLib) (rdr : Adv2reader)
    (name : String) :
    dictLookup (getAdvFileMetaData n rdr) name =
      lastValue (metaProcessedPairs n rdr) name := by
  rw [getAdvFileMetaData_eq_applyWrites, dictLookup_applyWrites]
  cases lastValue (metaProcessedPairs n rdr) name <;> simp [dictLookup]

/-- C7: for every valid main-stream frame number, a returning `getFrame`
call hands back a row-major pixel array of exactly `Height` rows of
`Width` columns each. -/
theorem C7_pixel_array_shape (n : NativeAdvLib) (rdr : Adv2reader)
    (heap : List AdvFrameInfo) (f : Nat) (r : FrameResult)
    (hf : f < rdr.CountMainFrames)
    (h : getMainImageAndStatusData n rdr heap f = .ok r) :
    r.pixels.length = rdr.Height ∧ ∀ row ∈ r.pixels, row.length = rdr.Width := by
  obtain ⟨hp, -, -, -, -⟩ := getGeneric_ok_inv n rdr heap f .Main r h
  constructor
  · rw [hp]; simp [reshapePixels]
  · intro row hr
    rw [hp] at hr
    simp only [reshapePixels, List.mem_map] at hr
    obtain ⟨i, -, hrow⟩ := hr
    rw [← hrow]
    simp

/-- C7 witness: the 2×1 base reader, frame 0. -/
theorem C7_pixel_array_shape_witness :
    0 < baseReader.CountMainFrames ∧
    (okResult (getMainImageAndStatusData baseOracle baseReader initHeap 0)).pixels.length
        = baseReader.Height ∧
    ∀ row ∈ (okResult (getMainImageAndStatusData baseOracle baseReader initHeap 0)).pixels,
      row.length = baseReader.Width :=
  ⟨by decide,
   C7_pixel_array_shape baseOracle baseReader initHeap 0
     (okResult (getMainImageAndStatusData baseOracle baseReader initHeap 0))
     (by decide) rfl⟩

/-- C9: every returned pixel sample is the raw 32-bit sample read from
the file reduced modulo `2^16` (the `dtype='uint16'` conversion), hence
an unsigned 16-bit value, independently of the file's declared
bits-per-pixel (which the computation never consults). -/
theorem C9_pixels_uint16_truncation (n : NativeAdvLib) (rdr : Adv2reader)
    (heap : List AdvFrameInfo) (f : Nat) (s : StreamId) (r : FrameResult)
    (row col : Nat)
    (h : getGenericImageAndStatusData n rdr heap f s = .ok r)
    (hr : row < rdr.Height) (hc : col < rdr.Width) :
    (r.pixels.getD row []).getD col 0 =
      (n.framePixels s f).2.2 (row * rdr.Width + col) % 2 ^ 16 ∧
    (r.pixels.getD row []).getD col 0 < 2 ^ 16 := by
  obtain ⟨hp, -, -, -, -⟩ := getGeneric_ok_inv n rdr heap f s r h
  have hdvd : (2 : Nat) ^ 16 ∣ 2 ^ 32 := pow_dvd_pow 2 (by norm_num)
  have hval : (r.pixels.getD row []).getD col 0 =
      (n.framePixels s f).2.2 (row * rdr.Width + col) % 2 ^ 16 := by
    rw [hp]
    simp [reshapePixels, List.getD, List.getElem?_map, List.getElem?_range,
      hr, hc]
    exact Nat.mod_mod_of_dvd _ (by norm_num)
  exact ⟨hval, hval ▸ Nat.mod_lt _ (by norm_num)⟩

/-- C9 witness: the base reader at row 0, column 1. -/
theorem C9_pixels_uint16_truncation_witness :
    (((okResult (getMainImageAndStatusData baseOracle baseReader initHeap 0)).pixels.getD 0 []).getD 1 0)
        = (baseOracle.framePixels .Main 0).2.2 (0 * baseReader.Width + 1) % 2 ^ 16 ∧
    (((okResult (getMainImageAndStatusData baseOracle baseReader initHeap 0)).pixels.getD 0 []).getD 1 0) < 2 ^ 16 :=
  C9_pixels_uint16_truncation baseOracle baseReader initHeap 0 .Main
    (okResult (getMainImageAndStatusData baseOracle baseReader initHeap 0))
    0 1 rfl (by decide) (by decide)

/-- C10: a reader built by `__init__` holds no empty-named tag in its
status schema, so every key of every returned status map is the
non-empty name of a schema tag. -/
theorem C10_status_keys_nonempty (n : NativeAdvLib) (fi : AdvFileInfo)
    (heap : List AdvFrameInfo) (f : Nat) (s : StreamId) (r : FrameResult)
    (h : getGenericImageAndStatusData n (mkAdv2reader n fi) heap f s = .ok r) :
    ∀ p ∈ r.statusMap, p.1 ≠ "" ∧
      ∃ ty, (ty, p.1) ∈ (mkAdv2reader n fi).statusTagInfo := by
  intro p hp
  by_cases hsuc : (n.framePixels s f).1 = S_OK
  · have hm := getGeneric_statusMap_ok n (mkAdv2reader n fi) heap f s r hsuc h
    rcases buildStatusDict_ok_keys n (mkAdv2reader n fi).statusTagInfo 0 []
        r.statusMap hm p hp with hnil | ⟨ty, hty⟩
    · exact absurd hnil (List.not_mem_nil p)
    · refine ⟨?_, ⟨ty, hty⟩⟩
      exact mkStatusTagInfo_names_nonempty n fi.StatusTagsCount ty p.1 hty
  · rw [getGeneric_err n (mkAdv2reader n fi) heap f s hsuc] at h
    cases h
    exact absurd hp (List.not_mem_nil p)

/-- Native oracle for the C10 witness: a schema of three declared slots
whose middle name is empty. -/
def oracleC10 : NativeAdvLib :=
  { baseOracle with statusTagName := fun tid =>
      if tid = 1 then (.Int16, "") else (.Int8, "Named") }

def fileInfoC10 : AdvFileInfo := { baseFileInfo with StatusTagsCount := 3 }

def readerC10 : Adv2reader := mkAdv2reader oracleC10 fileInfoC10

def resC10 : FrameResult :=
  okResult (getGenericImageAndStatusData oracleC10 readerC10 initHeap 0 .Main)

/-- C10 witness: the empty-named middle slot is filtered out of the
schema, and the concrete map entry `("Named", 3)` has a non-empty key
that names a schema tag. -/
theorem C10_status_keys_nonempty_witness :
    ("Named", StatusValue.intV 3) ∈ resC10.statusMap ∧
    "Named" ≠ "" ∧
    (Adv2TagType.Int8, "Named") ∈ readerC10.statusTagInfo :=
  have h := C10_status_keys_nonempty oracleC10 fileInfoC10 initHeap 0 .Main
    resC10 rfl
  ⟨by decide, (h ("Named", .intV 3) (by decide)).1, by decide⟩

/-- The dead zero-timestamp guard aside, the code's rendering is exactly
the derivation the specification describes. -/
theorem advTimestampStrings_eq_spec (lo hi exposure : Nat) :
    advTimestampStrings lo hi exposure =
      specStartOfExposureStrings lo hi exposure := by
  simp [advTimestampStrings, specStartOfExposureStrings, timedeltaClassEqZero]

/-- C5: for every successfully decoded frame, the rendered strings on the
returned record are derived per the specification: combine the two
halves into nanoseconds since 2010-01-01, subtract half the exposure,
truncate to microseconds, proleptic Gregorian rendering as `YYYY-MM-DD`
and `[HH:MM:SS.mmmmmm]`. -/
theorem C5_start_of_exposure_derivation (n : NativeAdvLib) (rdr : Adv2reader)
    (heap : List AdvFrameInfo) (f : Nat) (s : StreamId)
    (m : List (String × StatusValue))
    (hsuc : (n.framePixels s f).1 = S_OK)
    (href : rdr.frameInfoRef < heap.length)
    (hm : buildStatusDict n rdr.statusTagInfo 0 [] = .ok m) :
    ∃ r, getGenericImageAndStatusData n rdr heap f s = .ok r ∧
      ((r.heap.getD rdr.frameInfoRef {}).DateString,
        (r.heap.getD rdr.frameInfoRef {}).StartOfExposureTimestampString) =
        specStartOfExposureStrings
          (n.framePixels s f).2.1.UtcMidExposureTimestampLo
          (n.framePixels s f).2.1.UtcMidExposureTimestampHi
          (n.framePixels s f).2.1.Exposure := by
  refine ⟨_, getGeneric_ok n rdr heap f s m hsuc hm, ?_⟩
  have hget : ∀ (v : AdvFrameInfo),
      (heap.set rdr.frameInfoRef v).getD rdr.frameInfoRef {} = v := by
    intro v
    simp [List.getD, List.getElem?_set_eq_of_lt v href]
  rw [hget]
  rw [← advTimestampStrings_eq_spec]

/-- C5 witness: a frame whose mid-exposure timestamp is
2012-03-04T12:00:00.5 UTC (68558400.5 s into the epoch, spanning the
2012 leap day) with a 1 s exposure; the rendered start-of-exposure
instant is 2012-03-04T12:00:00.0. -/
theorem C5_start_of_exposure_derivation_witness :
    ∃ r, getGenericImageAndStatusData
        ({ baseOracle with framePixels := fun _ _ =>
            (S_OK,
             { UtcMidExposureTimestampLo := (68558400500000000 : Nat) % 2 ^ 32,
               UtcMidExposureTimestampHi := (68558400500000000 : Nat) / 2 ^ 32,
               Exposure := 1000000000 },
             fun _ => 0) }) baseReader initHeap 0 .Main = .ok r ∧
      ((r.heap.getD baseReader.frameInfoRef {}).DateString,
        (r.heap.getD baseReader.frameInfoRef {}).StartOfExposureTimestampString) =
        specStartOfExposureStrings ((68558400500000000 : Nat) % 2 ^ 32)
          ((68558400500000000 : Nat) / 2 ^ 32) 1000000000 :=
  C5_start_of_exposure_derivation
    ({ baseOracle with framePixels := fun _ _ =>
        (S_OK,
         { UtcMidExposureTimestampLo := (68558400500000000 : Nat) % 2 ^ 32,
           UtcMidExposureTimestampHi := (68558400500000000 : Nat) / 2 ^ 32,
           Exposure := 1000000000 },
         fun _ => 0) }) baseReader initHeap 0 .Main [] rfl (by decide) rfl

/-- Sanity: the split halves recombine and render across the leap day. -/
example : specStartOfExposureStrings ((68558400500000000 : Nat) % 2 ^ 32)
    ((68558400500000000 : Nat) / 2 ^ 32) 1000000000 =
    ("2012-03-04", "[12:00:00.000000]") := by decide

/-- C1: a decoded frame whose combined 64-bit mid-exposure timestamp is
exactly zero still gets the rendered epoch date `2010-01-01` and the
time string `[00:00:00.000000]` — not two empty strings.  The guard at
Adv2File.py line 107 reads `if timedelta == 0:`, comparing the
`datetime.timedelta` class itself against `0`, which is always false, so
the empty-string branch its comment announces is unreachable. -/
theorem C1_zero_timestamp_renders_epoch_date :
    (baseOracle.framePixels .Main 0).2.1.UtcMidExposureTimestampLo +
      (baseOracle.framePixels .Main 0).2.1.UtcMidExposureTimestampHi * 2 ^ 32 = 0 ∧
    getMainImageAndStatusData baseOracle baseReader initHeap 0 =
      .ok (okResult (getMainImageAndStatusData baseOracle baseReader initHeap 0)) ∧
    ((okResult (getMainImageAndStatusData baseOracle baseReader initHeap 0)).heap.getD
        (okResult (getMainImageAndStatusData baseOracle baseReader initHeap 0)).frameInfoRef
        {}).DateString = "2010-01-01" ∧
    ((okResult (getMainImageAndStatusData baseOracle baseReader initHeap 0)).heap.getD
        (okResult (getMainImageAndStatusData baseOracle baseReader initHeap 0)).frameInfoRef
        {}).StartOfExposureTimestampString = "[00:00:00.000000]" :=
  ⟨by decide, rfl, by decide, by decide⟩

/-- Native oracle whose status section reports every tag absent from the
current frame. -/
def oracleC2 : NativeAdvLib :=
  { baseOracle with statusU8 := fun _ => (E_ADV_STATUS_TAG_NOT_FOUND_IN_FRAME, 0) }

/-- Reader whose schema declares the single `Int8` tag `ErrorFlag`. -/
def readerC2 : Adv2reader :=
  { baseReader with statusTagInfo := [(.Int8, "ErrorFlag")] }

/-- C2 counterexample: a schema tag absent from the frame
(`E_ADV_STATUS_TAG_NOT_FOUND_IN_FRAME` from the native getter) produces a
status-map **entry** with the placeholder value `-1` — the returned map
is `[("ErrorFlag", -1)]`, not an absence. -/
theorem C2_absent_tag_yields_placeholder_entry :
    getMainImageAndStatusData oracleC2 readerC2 initHeap 0 =
      .ok (okResult (getMainImageAndStatusData oracleC2 readerC2 initHeap 0)) ∧
    (oracleC2.statusU8 0).1 = E_ADV_STATUS_TAG_NOT_FOUND_IN_FRAME ∧
    (okResult (getMainImageAndStatusData oracleC2 readerC2 initHeap 0)).statusMap
        = [("ErrorFlag", .intV (-1))] ∧
    dictLookup (okResult (getMainImageAndStatusData oracleC2 readerC2 initHeap 0)).statusMap
        "ErrorFlag" = some (.intV (-1)) :=
  ⟨rfl, by decide, by decide, by decide⟩

/-- All six native status getters report the tag at `tagId` missing from
the current frame (`E_ADV_STATUS_TAG_NOT_FOUND_IN_FRAME`); the per-frame
absence of a tag is visible to the wrapper only through these return
codes, whichever getter its declared type selects. -/
def nativeTagAbsent (n : NativeAdvLib) (tagId : Nat) : Prop :=
  (n.statusU8 tagId).1 = E_ADV_STATUS_TAG_NOT_FOUND_IN_FRAME ∧
  (n.statusI16 tagId).1 = E_ADV_STATUS_TAG_NOT_FOUND_IN_FRAME ∧
  (n.statusI32 tagId).1 = E_ADV_STATUS_TAG_NOT_FOUND_IN_FRAME ∧
  (n.statusI64 tagId).1 = E_ADV_STATUS_TAG_NOT_FOUND_IN_FRAME ∧
  (n.statusReal tagId).1 = E_ADV_STATUS_TAG_NOT_FOUND_IN_FRAME ∧
  (n.statusUtf8Size tagId).1 = E_ADV_STATUS_TAG_NOT_FOUND_IN_FRAME

/-- The placeholder the wrapper stores for an absent tag of each declared
kind: the sentinel `-1` for the four integer kinds and `Real`, except
that an absent `Int64` tag named `SystemTime` has its sentinel `-1` fed
through the epoch renderer (Adv2File.py lines 132-137), and an absent
`UTF8String` tag becomes the empty string (AdvLib.py lines 262-264). -/
def absentTagValue (ty : Adv2TagType) (nm : String) : StatusValue :=
  match ty with
  | .Int8 => .intV (-1)
  | .Int16 => .intV (-1)
  | .Int32 => .intV (-1)
  | .Int64 =>
      if nm = "SystemTime" then .strV (systemTimeString ((-1 : Int).fdiv 1000))
      else .intV (-1)
  | .Real => .intV (-1)
  | .UTF8String => .strV ""

/-- The absent-`SystemTime` placeholder is the instant one microsecond
before the 2010 epoch, rendered. -/
example : absentTagValue .Int64 "SystemTime" =
    .strV "2009-12-31 [23:59:59.999999]" := by decide

example : absentTagValue .Int16 "AlmanacStatus" = .intV (-1) := by decide

/-- An absent tag's loop iteration succeeds and produces exactly the
placeholder of its declared kind. -/
theorem statusEntryValue_absent (n : NativeAdvLib) (i : Nat)
    (ty : Adv2TagType) (nm : String) (habs : nativeTagAbsent n i) :
    statusEntryValue n i ty nm = .ok (absentTagValue ty nm) := by
  obtain ⟨h8, h16, h32, h64, hr, hu⟩ := habs
  cases ty with
  | Int8 =>
    simp [statusEntryValue, absentTagValue, AdvVer2_GetStatusTagUInt8, h8,
      E_ADV_STATUS_TAG_NOT_FOUND_IN_FRAME, S_OK]
  | Int16 =>
    simp [statusEntryValue, absentTagValue, AdvVer2_GetStatusTagInt16, h16,
      E_ADV_STATUS_TAG_NOT_FOUND_IN_FRAME, S_OK]
  | Int32 =>
    simp [statusEntryValue, absentTagValue, AdvVer2_GetStatusTagInt32, h32,
      E_ADV_STATUS_TAG_NOT_FOUND_IN_FRAME, S_OK]
  | Int64 =>
    by_cases hnm : nm = "SystemTime" <;>
      simp [statusEntryValue, absentTagValue, AdvVer2_GetStatusTagInt64, h64,
        hnm, E_ADV_STATUS_TAG_NOT_FOUND_IN_FRAME, S_OK]
  | Real =>
    simp [statusEntryValue, absentTagValue, AdvVer2_GetStatusTagReal, hr,
      E_ADV_STATUS_TAG_NOT_FOUND_IN_FRAME, S_OK]
  | UTF8String =>
    simp [statusEntryValue, absentTagValue, AdvVer2_GetStatusTagUTF8String, hu,
      E_ADV_STATUS_TAG_NOT_FOUND_IN_FRAME, S_OK, Except.map]

/-- C2 amended: a schema tag of any of the six declared kinds that is
absent from the frame yields a status-map entry for its name holding the
kind's placeholder — `-1` for `Int8`/`Int16`/`Int32`/`Real` and for
`Int64` tags not named `SystemTime`, the rendered string
`2009-12-31 [23:59:59.999999]` for an absent `SystemTime` tag, and the
empty string for `UTF8String` tags — rather than no entry, and the call
still succeeds: the absence is non-fatal. -/
theorem C2_amended_absent_tag_sentinel (n : NativeAdvLib) (rdr : Adv2reader)
    (heap : List AdvFrameInfo) (f : Nat) (s : StreamId) (r : FrameResult)
    (i : Nat) (ty : Adv2TagType) (nm : String)
    (hnodup : (rdr.statusTagInfo.map (fun t => t.2)).Nodup)
    (htag : rdr.statusTagInfo[i]? = some (ty, nm))
    (habsent : nativeTagAbsent n i)
    (hsuc : (n.framePixels s f).1 = S_OK)
    (h : getGenericImageAndStatusData n rdr heap f s = .ok r) :
    dictLookup r.statusMap nm = some (absentTagValue ty nm) := by
  have hm := getGeneric_statusMap_ok n rdr heap f s r hsuc h
  refine buildStatusDict_lookup_at n rdr.statusTagInfo 0 [] r.statusMap i
    ty nm (absentTagValue ty nm) hm htag ?_ ?_
  · intro j' ty' nm' hlt hj' he
    have hmapi : (rdr.statusTagInfo.map (fun t => t.2))[i]? = some nm := by
      simp [List.getElem?_map, htag]
    have hmapj : (rdr.statusTagInfo.map (fun t => t.2))[j']? = some nm := by
      simp [List.getElem?_map, hj', he]
    have hi_lt : i < (rdr.statusTagInfo.map (fun t => t.2)).length :=
      (List.getElem?_eq_some_iff.mp hmapi).1
    have := List.getElem?_inj hi_lt hnodup (hmapi.trans hmapj.symm)
    omega
  · rw [Nat.zero_add]
    exact statusEntryValue_absent n i ty nm habsent

/-- Native oracle whose status getters of every kind report the tag
absent from the current frame. -/
def oracleC2all : NativeAdvLib :=
  { baseOracle with
    statusU8 := fun _ => (E_ADV_STATUS_TAG_NOT_FOUND_IN_FRAME, 0)
    statusI16 := fun _ => (E_ADV_STATUS_TAG_NOT_FOUND_IN_FRAME, 0)
    statusI32 := fun _ => (E_ADV_STATUS_TAG_NOT_FOUND_IN_FRAME, 0)
    statusI64 := fun _ => (E_ADV_STATUS_TAG_NOT_FOUND_IN_FRAME, 0)
    statusReal := fun _ => (E_ADV_STATUS_TAG_NOT_FOUND_IN_FRAME, 0)
    statusUtf8Size := fun _ => (E_ADV_STATUS_TAG_NOT_FOUND_IN_FRAME, 0) }

/-- Reader whose schema declares the single `Int64` tag `SystemTime`. -/
def readerC2all : Adv2reader :=
  { baseReader with statusTagInfo := [(.Int64, "SystemTime")] }

def resC2all : FrameResult :=
  okResult (getMainImageAndStatusData oracleC2all readerC2all initHeap 0)

/-- C2 amended witness: the absent `SystemTime` tag — the hardest of the
six kinds — gets the rendered-string placeholder. -/
theorem C2_amended_absent_tag_sentinel_witness :
    dictLookup resC2all.statusMap "SystemTime" =
      some (absentTagValue .Int64 "SystemTime") :=
  C2_amended_absent_tag_sentinel oracleC2all readerC2all initHeap 0 .Main
    resC2all 0 .Int64 "SystemTime" (by decide) (by decide)
    ⟨rfl, rfl, rfl, rfl, rfl, rfl⟩ rfl rfl

/-- Native oracle giving every frame a distinct mid-exposure timestamp,
so consecutive decodes visibly rewrite the shared record. -/
def oracleC3 : NativeAdvLib :=
  { baseOracle with framePixels := fun _ f =>
      (S_OK, { UtcMidExposureTimestampLo := 1000000000 * (f + 1) }, fun _ => 0) }

def readerC3 : Adv2reader := { baseReader with CountMainFrames := 2 }

def resC3first : FrameResult :=
  okResult (getMainImageAndStatusData oracleC3 readerC3 initHeap 0)

def resC3second : FrameResult :=
  okResult (getMainImageAndStatusData oracleC3 resC3first.reader resC3first.heap 1)

/-- C3 counterexample: the record handed back by `getFrame(Main, 0)` is
the same shared object the next call `getFrame(Main, 1)` returns, and
that next call rewrites its fields in place — after it, the record the
first caller holds no longer carries frame 0's data. -/
theorem C3_record_overwritten_by_later_call :
    getMainImageAndStatusData oracleC3 readerC3 initHeap 0 = .ok resC3first ∧
    getMainImageAndStatusData oracleC3 resC3first.reader resC3first.heap 1 =
      .ok resC3second ∧
    resC3second.frameInfoRef = resC3first.frameInfoRef ∧
    resC3second.heap.getD resC3first.frameInfoRef {} ≠
      resC3first.heap.getD resC3first.frameInfoRef {} ∧
    (resC3first.heap.getD resC3first.frameInfoRef {}).UtcMidExposureTimestampLo
        = 1000000000 ∧
    (resC3second.heap.getD resC3first.frameInfoRef {}).UtcMidExposureTimestampLo
        = 2000000000 :=
  ⟨rfl, rfl, by decide, by decide, by decide, by decide⟩

/-- C3 amended: every `getFrame` call returns the single `AdvFrameInfo`
record allocated at reader construction (`self.frameInfo`), mutating it
in place: the returned reference is always the reader's shared one, no
new record is allocated, and no other heap cell is touched.  Callers
wanting a frame's record preserved across calls must copy it. -/
theorem C3_amended_shared_record (n : NativeAdvLib) (rdr : Adv2reader)
    (heap : List AdvFrameInfo) (f : Nat) (s : StreamId) (r : FrameResult)
    (h : getGenericImageAndStatusData n rdr heap f s = .ok r) :
    r.frameInfoRef = rdr.frameInfoRef ∧
    r.reader.frameInfoRef = rdr.frameInfoRef ∧
    r.heap.length = heap.length ∧
    ∀ j, j ≠ rdr.frameInfoRef → r.heap[j]? = heap[j]? := by
  obtain ⟨-, h2, h3, h4, h5⟩ := getGeneric_ok_inv n rdr heap f s r h
  exact ⟨h2, by rw [h3], h4, h5⟩

/-- C3 amended witness: the first decode of `readerC3`. -/
theorem C3_amended_shared_record_witness :
    resC3first.frameInfoRef = readerC3.frameInfoRef ∧
    resC3first.reader.frameInfoRef = readerC3.frameInfoRef ∧
    resC3first.heap.length = initHeap.length ∧
    ∀ j, j ≠ readerC3.frameInfoRef → resC3first.heap[j]? = initHeap[j]? :=
  C3_amended_shared_record oracleC3 readerC3 initHeap 0 .Main resC3first rfl

/-- Native oracle whose first main index record stores the 32-bit low
ticks half `2^31` (a value with the sign bit set). -/
def oracleC4 : NativeAdvLib :=
  { baseOracle with mainIndexWords := fun k => if k = 0 then 2 ^ 31 else 0 }

def idxResultC4 : List AdvIndexEntry × List AdvIndexEntry :=
  match getIndexEntries oracleC4 baseReader with
  | .ok p => p
  | .error _ => ([], [])

/-- C4 counterexample: the stored unsigned halves are `lo = 2^31`,
`hi = 0`, whose unsigned reassembly is `2^31`; but the `c_int` buffer
reads the low half as a negative signed value, so the built entry's
`ElapsedTicks` is `-2^31`, not `lo + (hi << 32)` of the unsigned
halves. -/
theorem C4_signed_half_counterexample :
    getIndexEntries oracleC4 baseReader = .ok idxResultC4 ∧
    idxResultC4.1 = [{ ElapsedTicks := -(2 ^ 31 : Int), FrameOffset := 0, BytesCount := 0 }] ∧
    oracleC4.mainIndexWords 0 % 2 ^ 32 +
      (oracleC4.mainIndexWords 1 % 2 ^ 32) * 2 ^ 32 = 2 ^ 31 ∧
    (-(2 ^ 31 : Int)) ≠ ((oracleC4.mainIndexWords 0 % 2 ^ 32 +
      (oracleC4.mainIndexWords 1 % 2 ^ 32) * 2 ^ 32 : Nat) : Int) :=
  ⟨rfl, by decide, by decide, by decide⟩

/-- C4 amended: `getIndexEntries` returns exactly `CountMainFrames` and
`CountCalibrationFrames` entries, in frame-number order, reading
consecutive records at a stride of six 32-bit slots with `BytesCount`
from the single fifth slot — but the two halves of each 64-bit field and
the byte count are read as **signed** 32-bit values (`c_int`), so the
claimed unsigned reassembly `lo + (hi << 32)` only holds when each
stored half is below `2^31`. -/
theorem C4_amended_index_entries (n : NativeAdvLib) (rdr : Adv2reader)
    (h : n.indexRet = S_OK) :
    getIndexEntries n rdr = .ok
      (readIndexList n.mainIndexWords rdr.CountMainFrames,
       readIndexList n.calibIndexWords rdr.CountCalibrationFrames) ∧
    (readIndexList n.mainIndexWords rdr.CountMainFrames).length
        = rdr.CountMainFrames ∧
    (readIndexList n.calibIndexWords rdr.CountCalibrationFrames).length
        = rdr.CountCalibrationFrames ∧
    (∀ words count j, j < count → (readIndexList words count)[j]? = some
      { ElapsedTicks := toSigned32 (words (6 * j)) +
          toSigned32 (words (6 * j + 1)) * 2 ^ 32
        FrameOffset := toSigned32 (words (6 * j + 2)) +
          toSigned32 (words (6 * j + 3)) * 2 ^ 32
        BytesCount := toSigned32 (words (6 * j + 4)) }) ∧
    (∀ w, w % 2 ^ 32 < 2 ^ 31 → toSigned32 w = ((w % 2 ^ 32 : Nat) : Int)) := by
  refine ⟨?_, ?_, ?_, ?_, ?_⟩
  · rw [getIndexEntries, if_pos h]
  · simp [readIndexList]
  · simp [readIndexList]
  · intro words count j hj
    simp [readIndexList, List.getElem?_map, List.getElem?_range, hj]
  · intro w hw
    simp only [toSigned32]
    rw [if_pos hw]

/-- C4 amended witness: the base oracle's all-zero index. -/
theorem C4_amended_index_entries_witness :
    getIndexEntries baseOracle baseReader = .ok
      (readIndexList baseOracle.mainIndexWords baseReader.CountMainFrames,
       readIndexList baseOracle.calibIndexWords baseReader.CountCalibrationFrames) ∧
    (readIndexList baseOracle.mainIndexWords baseReader.CountMainFrames).length
        = baseReader.CountMainFrames ∧
    (readIndexList baseOracle.calibIndexWords baseReader.CountCalibrationFrames).length
        = baseReader.CountCalibrationFrames ∧
    (∀ words count j, j < count → (readIndexList words count)[j]? = some
      { ElapsedTicks := toSigned32 (words (6 * j)) +
          toSigned32 (words (6 * j + 1)) * 2 ^ 32
        FrameOffset := toSigned32 (words (6 * j + 2)) +
          toSigned32 (words (6 * j + 3)) * 2 ^ 32
        BytesCount := toSigned32 (words (6 * j + 4)) }) ∧
    (∀ w, w % 2 ^ 32 < 2 ^ 31 → toSigned32 w = ((w % 2 ^ 32 : Nat) : Int)) :=
  C4_amended_index_entries baseOracle baseReader rfl

/-- C6: with the native out-of-range rejection modelled from the spec,
an out-of-range frame number makes `getFrame` return the
frame-missing-from-index message with an empty status map, leaves the
schema, file descriptor and index results untouched, and a subsequent
call whose native decode succeeds returns exactly what it would have
returned had the failed call never happened. -/
theorem C6_out_of_range_isolated (n : NativeAdvLib) (rdr : Adv2reader)
    (heap : List AdvFrameInfo) (f : Nat) (s : StreamId)
    (hspec : nativeRejectsOutOfRange n rdr)
    (hf : ¬ f < streamFrameCount rdr s) :
    ∃ r, getGenericImageAndStatusData n rdr heap f s = .ok r ∧
      r.errMsg = ResolveErrorMessage E_ADV_FRAME_MISSING_FROM_INDEX ∧
      r.errMsg ≠ "" ∧
      r.statusMap = [] ∧
      r.reader.statusTagInfo = rdr.statusTagInfo ∧
      r.reader.FileInfo = rdr.FileInfo ∧
      getIndexEntries n r.reader = getIndexEntries n rdr ∧
      ∀ f' s', (n.framePixels s' f').1 = S_OK →
        getGenericImageAndStatusData n r.reader r.heap f' s' =
          getGenericImageAndStatusData n rdr heap f' s' := by
  have hret : (n.framePixels s f).1 = E_ADV_FRAME_MISSING_FROM_INDEX := hspec s f hf
  have hne : (n.framePixels s f).1 ≠ S_OK := by rw [hret]; decide
  refine ⟨_, getGeneric_err n rdr heap f s hne, by rw [hret], ?_, rfl, rfl, rfl,
    rfl, ?_⟩
  · show ResolveErrorMessage (n.framePixels s f).1 ≠ ""
    rw [hret]; decide
  · intro f' s' hsuc'
    dsimp only
    cases hm : buildStatusDict n rdr.statusTagInfo 0 [] with
    | error e =>
      rw [getGeneric_statusErr n rdr heap f' s' e hsuc' hm]
      exact getGeneric_statusErr n _ _ f' s' e hsuc' hm
    | ok m =>
      rw [getGeneric_ok n rdr heap f' s' m hsuc' hm]
      refine (getGeneric_ok n _ _ f' s' m hsuc' hm).trans ?_
      rw [List.set_set]
      rfl

/-- Native oracle for the C6 witness: frame 0 of Main decodes, every
other request is rejected as missing from the index. -/
def oracleC6 : NativeAdvLib :=
  { baseOracle with framePixels := fun s f =>
      if f < (match s with | .Main => 1 | .Calibration => 0) then
        (S_OK, {}, fun _ => 0)
      else (E_ADV_FRAME_MISSING_FROM_INDEX, {}, fun _ => 0) }

/-- C6 witness: frame 5 of the one-frame main stream. -/
theorem C6_out_of_range_isolated_witness :
    nativeRejectsOutOfRange oracleC6 baseReader ∧
    (¬ 5 < streamFrameCount baseReader .Main) ∧
    ∃ r, getGenericImageAndStatusData oracleC6 baseReader initHeap 5 .Main = .ok r ∧
      r.errMsg = ResolveErrorMessage E_ADV_FRAME_MISSING_FROM_INDEX ∧
      r.errMsg ≠ "" ∧
      r.statusMap = [] ∧
      r.reader.statusTagInfo = baseReader.statusTagInfo ∧
      r.reader.FileInfo = baseReader.FileInfo ∧
      getIndexEntries oracleC6 r.reader = getIndexEntries oracleC6 baseReader ∧
      ∀ f' s', (oracleC6.framePixels s' f').1 = S_OK →
        getGenericImageAndStatusData oracleC6 r.reader r.heap f' s' =
          getGenericImageAndStatusData oracleC6 baseReader initHeap f' s' :=
  have hspec : nativeRejectsOutOfRange oracleC6 baseReader := by
    intro s f h
    cases s
    · simp only [streamFrameCount, baseReader] at h
      simp [oracleC6, h]
    · simp [oracleC6]
  ⟨hspec, by decide,
   C6_out_of_range_isolated oracleC6 baseReader initHeap 5 .Main hspec (by decide)⟩

end Adv2
